import Mathlib

/-!
A shallow embedding of the RabbitNUT UPS monitor (Rust sources: `ups.rs`,
`monitor.rs`, `metrics.rs`, `config.rs`) together with theorems about its
protocol parsing, battery state machine, shutdown triggers and metrics
endpoint.  Socket and process I/O are elided: each function that reads
protocol lines takes those lines as arguments, time is a natural-number
timestamp standing for `Instant`, and `f64` values that the program only
parses and compares are modelled exactly as rationals.
-/

namespace RabbitNUT

/-! ### String helpers (models of the Rust std functions the sources use) -/

/-- Model of Rust slicing helper: is the first list a prefix of the second. -/
def isPrefixList : List Char → List Char → Bool
  | [], _ => true
  | _ :: _, [] => false
  | a :: as, b :: bs => a == b && isPrefixList as bs

/-- Auxiliary substring scan over character lists. -/
def containsSub : List Char → List Char → Bool
  | [], pat => pat.isEmpty
  | l@(_ :: rest), pat => isPrefixList pat l || containsSub rest pat

/-- Model of Rust `str::contains(&str)`: substring containment. -/
def containsSubstr (s pat : String) : Bool :=
  containsSub s.toList pat.toList

/-- Auxiliary whitespace tokenizer over character lists; `acc` is the
reversed current token. -/
def splitWSAux : List Char → List Char → List String
  | [], acc => if acc.isEmpty then [] else [String.mk acc.reverse]
  | c :: cs, acc =>
    if c.isWhitespace then
      if acc.isEmpty then splitWSAux cs []
      else String.mk acc.reverse :: splitWSAux cs []
    else splitWSAux cs (c :: acc)

/-- Model of Rust `str::split_whitespace`: whitespace-separated tokens,
no empty tokens. -/
def splitWhitespace (s : String) : List String :=
  splitWSAux s.toList []

/-- Drop the characters satisfying `p` from both ends of a list. -/
def trimEnds (p : Char → Bool) (l : List Char) : List Char :=
  ((l.dropWhile p).reverse.dropWhile p).reverse

/-- Model of Rust `str::trim`: strip leading and trailing whitespace. -/
def trimStr (s : String) : String :=
  String.mk (trimEnds Char.isWhitespace s.toList)

/-- Model of Rust `str::trim_matches(c)`: strip every leading and trailing
occurrence of the character `c`. -/
def trimMatches (c : Char) (s : String) : String :=
  String.mk (trimEnds (fun d => d == c) s.toList)

/-- Model of Rust `[&str]::join(" ")`. -/
def joinSpace : List String → String
  | [] => ""
  | [s] => s
  | s :: rest => s ++ " " ++ joinSpace rest

/-- Decimal digits to a natural number. -/
def digitsToNat (l : List Char) : ℕ :=
  l.foldl (fun a c => 10 * a + (c.toNat - 48)) 0

/-- Model of Rust `str::parse::<u64>()`: optional leading `+`, one or more
ASCII digits, value below `2 ^ 64`; anything else fails. -/
def parseU64 (s : String) : Option ℕ :=
  let cs := s.toList
  let ds := match cs with
    | '+' :: rest => rest
    | _ => cs
  if ds.isEmpty then none
  else if !ds.all Char.isDigit then none
  else
    let v := digitsToNat ds
    if v < 2 ^ 64 then some v else none

/-- Parse the optional exponent suffix of a float literal; returns the
exponent sign (true for negative) and magnitude. -/
def parseExpTail (cs : List Char) : Option (Bool × ℕ) :=
  match cs with
  | [] => some (false, 0)
  | c :: rest =>
    if c == 'e' || c == 'E' then
      let p : Bool × List Char := match rest with
        | '+' :: r => (false, r)
        | '-' :: r => (true, r)
        | _ => (false, rest)
      let eds := p.2.takeWhile Char.isDigit
      let leftover := p.2.dropWhile Char.isDigit
      if eds.isEmpty then none
      else if !leftover.isEmpty then none
      else some (p.1, digitsToNat eds)
    else none

/-- Assemble the exact rational value of a decimal literal: sign, integer
mantissa, number of fractional digits, exponent sign and magnitude. -/
def assembleF64 (neg : Bool) (mant k : ℕ) (negExp : Bool) (e : ℕ) : ℚ :=
  let n : ℕ := if negExp then mant else mant * 10 ^ e
  let d : ℕ := if negExp then 10 ^ k * 10 ^ e else 10 ^ k
  mkRat (if neg then -(n : ℤ) else (n : ℤ)) d

/-- Model of Rust `str::parse::<f64>()` on finite decimal literals (optional
sign, digits with an optional fractional part, optional decimal exponent),
with the parsed value represented exactly as a rational; the special forms
`inf` and `nan` are outside this model. -/
def parseF64 (s : String) : Option ℚ :=
  let cs := s.toList
  let sp : Bool × List Char := match cs with
    | '+' :: rest => (false, rest)
    | '-' :: rest => (true, rest)
    | _ => (false, cs)
  let intPart := sp.2.takeWhile Char.isDigit
  let afterInt := sp.2.dropWhile Char.isDigit
  match afterInt with
  | '.' :: rest =>
    let fracPart := rest.takeWhile Char.isDigit
    let afterFrac := rest.dropWhile Char.isDigit
    if intPart.isEmpty && fracPart.isEmpty then none
    else
      (parseExpTail afterFrac).map fun pe =>
        assembleF64 sp.1
          (digitsToNat intPart * 10 ^ fracPart.length + digitsToNat fracPart)
          fracPart.length pe.1 pe.2
  | _ =>
    if intPart.isEmpty then none
    else
      (parseExpTail afterInt).map fun pe =>
        assembleF64 sp.1 (digitsToNat intPart) 0 pe.1 pe.2

/-! ### Data model (`ups.rs`, `config.rs`, `monitor.rs`) -/

/-- Model of `UpsStatus` (ups.rs): the per-poll status snapshot.  `f64`
fields are rationals. -/
structure UpsStatus where
  battery_charge : ℚ
  battery_runtime : ℕ
  ups_status : String
  on_battery : Bool
  output_power : Option ℚ
deriving Repr, DecidableEq

/-- Model of `UpsConfig` (config.rs). -/
structure UpsConfig where
  host : String
  name : String
  port : ℕ
  username : Option String
  password : Option String
deriving Repr, DecidableEq

/-- Model of `MonitoringConfig` (config.rs). -/
structure MonitoringConfig where
  poll_interval : ℕ
deriving Repr, DecidableEq

/-- Model of `ShutdownConfig` (config.rs). -/
structure ShutdownConfig where
  enabled : Bool
  on_battery_seconds : ℕ
  battery_percent_threshold : ℚ
  runtime_threshold : ℕ
  shutdown_command : String
  shutdown_grace_period : ℕ
deriving Repr, DecidableEq

/-- Model of `LoggingConfig` (config.rs). -/
structure LoggingConfig where
  log_file : Option String
  log_level : String
deriving Repr, DecidableEq

/-- Model of `MetricsConfig` (config.rs). -/
structure MetricsConfig where
  enabled : Bool
  port : ℕ
  bearer_token : Option String
  format : Option String
deriving Repr, DecidableEq

/-- Model of `Config` (config.rs). -/
structure Config where
  ups : UpsConfig
  monitoring : MonitoringConfig
  shutdown : ShutdownConfig
  logging : LoggingConfig
  metrics : Option MetricsConfig
deriving Repr, DecidableEq

/-- Model of `impl Default for Config` (config.rs). -/
def defaultConfig : Config :=
  ⟨⟨"localhost", "ups", 3493, none, none⟩,
   ⟨5⟩,
   ⟨false, 300, 20, 180, "/sbin/shutdown -h +0", 30⟩,
   ⟨none, "info"⟩,
   some ⟨false, 8089, none, some "openmetrics"⟩⟩

/-! ### Protocol client (`ups.rs`) -/

/-- The whitespace tokens of one trimmed response line, as computed by
`UpsClient::get_var` before inspecting them. -/
def varParts (response : String) : List String :=
  splitWhitespace (trimStr response)

/-- Model of `UpsClient::get_var` (ups.rs, lines 88-109): parsing of the
single response line read from the socket.  The command write and the
socket read are elided; `response` is the line that was read. -/
def get_var (response : String) : Except String String :=
  let parts := varParts response
  if 4 ≤ parts.length ∧ parts.headD "" = "VAR" then
    Except.ok (trimMatches '"' (joinSpace (parts.drop 3)))
  else if containsSubstr response "ERR" then
    Except.error ("UPS error response: " ++ response)
  else
    Except.error ("Invalid response: " ++ response)

/-- Model of `UpsClient::get_status` (ups.rs, lines 111-139): the four
`GET VAR` reads for `battery.charge`, `battery.runtime`, `ups.status`
and `output.power`, given the four response lines the server sends, in
that order.  `connect`/`authenticate` are elided: a connection or
authentication failure surfaces to the caller as the same kind of
`Except.error` a variable-read failure does. -/
def get_status (chargeLine runtimeLine statusLine powerLine : String) :
    Except String UpsStatus := do
  let chargeStr ← get_var chargeLine
  let battery_charge := (parseF64 chargeStr).getD 0
  let runtimeStr ← get_var runtimeLine
  let battery_runtime := (parseU64 runtimeStr).getD 0
  let ups_status ← get_var statusLine
  let on_battery := containsSubstr ups_status "OB" || containsSubstr ups_status "DISCHRG"
  let output_power := match get_var powerLine with
    | Except.ok v => parseF64 v
    | Except.error _ => none
  return ⟨battery_charge, battery_runtime, ups_status, on_battery, output_power⟩

/-! ### Monitor state machine (`monitor.rs`) -/

/-- Model of `MonitorState` (monitor.rs): the on-battery-since timestamp
(a natural number standing for `Instant`) and the one-way shutdown flag. -/
structure MonitorState where
  on_battery_since : Option ℕ
  shutdown_scheduled : Bool
deriving Repr, DecidableEq

/-- The state `UpsMonitor::new` starts from (monitor.rs, lines 51-54). -/
def initialState : MonitorState :=
  ⟨none, false⟩

/-- Model of `UpsMonitor::update_battery_state` (monitor.rs, lines 144-155);
`now` is the value `Instant::now()` would record. -/
def update_battery_state (st : MonitorState) (now : ℕ) (status : UpsStatus) :
    MonitorState :=
  if status.on_battery then
    if st.on_battery_since.isNone then ⟨some now, st.shutdown_scheduled⟩ else st
  else
    if st.on_battery_since.isSome then ⟨none, st.shutdown_scheduled⟩ else st

/-- Model of `UpsMonitor::should_shutdown` (monitor.rs, lines 181-227).
Besides the decision, the second component records the `remaining`
value `on_battery_seconds - elapsed` computed for the periodic log line
when that statement is reached (the log itself is elided); it is modelled
on ℤ so that an underflow of the u64 subtraction would show up as a
negative value. -/
def should_shutdown (cfg : Config) (st : MonitorState) (now : ℕ)
    (status : UpsStatus) : Bool × Option ℤ :=
  if !cfg.shutdown.enabled || st.shutdown_scheduled then (false, none)
  else if !status.on_battery then (false, none)
  else
    match st.on_battery_since with
    | some since =>
      let elapsed := now - since
      if cfg.shutdown.on_battery_seconds ≤ elapsed then (true, none)
      else
        let remaining : ℤ :=
          (cfg.shutdown.on_battery_seconds : ℤ) - (elapsed : ℤ)
        if status.battery_charge ≤ cfg.shutdown.battery_percent_threshold then
          (true, some remaining)
        else if status.battery_runtime ≤ cfg.shutdown.runtime_threshold then
          (true, some remaining)
        else (false, some remaining)
    | none =>
      if status.battery_charge ≤ cfg.shutdown.battery_percent_threshold then
        (true, none)
      else if status.battery_runtime ≤ cfg.shutdown.runtime_threshold then
        (true, none)
      else (false, none)

/-- Model of `UpsMonitor::execute_shutdown` (monitor.rs, lines 229-286):
the guard on the already-scheduled flag and the setting of the flag.
The countdown and the external command are side effects, abstracted as
the returned Bool, true exactly when the call performs the shutdown
sequence (countdown plus command) rather than returning at the guard. -/
def execute_shutdown (st : MonitorState) : MonitorState × Bool :=
  if st.shutdown_scheduled then (st, false)
  else (⟨st.on_battery_since, true⟩, true)

/-- Whether the metrics server is enabled (monitor.rs, lines 36-46). -/
def metricsEnabled (cfg : Config) : Bool :=
  match cfg.metrics with
  | some m => m.enabled
  | none => false

/-- Model of `UpsMonitor::monitor_cycle` (monitor.rs, lines 109-142),
given the result of `get_status` for this cycle.  Returns the new
monitor state, the data handed to `MetricsServer::update_metrics` (the
snapshot and the pre-update on-battery duration; `none` when the server
is disabled or the read failed, in which case nothing is published),
and whether a shutdown attempt was performed this cycle. -/
def monitor_cycle (cfg : Config) (st : MonitorState) (now : ℕ)
    (statusRes : Except String UpsStatus) :
    MonitorState × Option (UpsStatus × Option ℕ) × Bool :=
  match statusRes with
  | Except.error _ => (st, none, false)
  | Except.ok status =>
    let published :=
      if metricsEnabled cfg then
        some (status, st.on_battery_since.map (fun since => now - since))
      else none
    let st1 := update_battery_state st now status
    if (should_shutdown cfg st1 now status).1 then
      let r := execute_shutdown st1
      (r.1, published, r.2)
    else
      (st1, published, false)

/-- Whether the `run` loop breaks after a cycle (monitor.rs, lines 84-86). -/
def loopBreaks (st : MonitorState) : Bool :=
  st.shutdown_scheduled

/-- One step of the monitor loop folded over a trace: threads the state and
counts the cycles that performed a shutdown attempt. -/
def traceStep (cfg : Config) (acc : MonitorState × ℕ)
    (input : ℕ × Except String UpsStatus) : MonitorState × ℕ :=
  let r := monitor_cycle cfg acc.1 input.1 input.2
  (r.1, acc.2 + (if r.2.2 then 1 else 0))

/-- The monitor loop restricted to its state effects: fold `monitor_cycle`
over a sequence of (time, read result) cycles, starting from `st`,
returning the final state and the number of shutdown attempts. -/
def run_trace (cfg : Config) (st : MonitorState)
    (inputs : List (ℕ × Except String UpsStatus)) : MonitorState × ℕ :=
  inputs.foldl (traceStep cfg) (st, 0)

/-- Fold of `update_battery_state` alone over a sequence of successfully
read snapshots (the state-update step of each cycle). -/
def update_trace (st : MonitorState) (snaps : List (ℕ × UpsStatus)) :
    MonitorState :=
  snaps.foldl (fun s p => update_battery_state s p.1 p.2) st

/-! ### Metrics endpoint (`metrics.rs`) -/

/-- Model of the `Metrics` record (metrics.rs, lines 16-27). -/
structure Metrics where
  ups_name : String
  ups_host : String
  battery_charge_percent : ℚ
  battery_runtime_seconds : ℕ
  ups_status : String
  on_battery : Bool
  last_update : ℤ
  on_battery_duration_seconds : Option ℕ
  output_power_watts : Option ℚ
deriving Repr, DecidableEq

/-- Model of `MetricsServer::update_metrics` (metrics.rs, lines 57-78):
the record written into the metrics cell; `now_ts` is the value
`chrono::Utc::now().timestamp()` would produce. -/
def update_metrics (ups_name ups_host : String) (status : UpsStatus)
    (on_battery_duration : Option ℕ) (now_ts : ℤ) : Metrics :=
  ⟨ups_name, ups_host, status.battery_charge, status.battery_runtime,
   status.ups_status, status.on_battery, now_ts, on_battery_duration,
   status.output_power⟩

/-- The four responses `handle_metrics` can produce (metrics.rs,
lines 113-160); the body and headers are determined by the constructor. -/
inductive MetricsResponse where
  | unauthorized
  | jsonBody (m : Metrics)
  | openmetricsBody (m : Metrics)
  | unavailable
deriving Repr, DecidableEq

/-- The HTTP status code of each response: 401 for `unauthorized`, 200 for
both bodies, 503 for `unavailable`. -/
def MetricsResponse.statusCode : MetricsResponse → ℕ
  | MetricsResponse.unauthorized => 401
  | MetricsResponse.jsonBody _ => 200
  | MetricsResponse.openmetricsBody _ => 200
  | MetricsResponse.unavailable => 503

/-- The format dispatch at the end of `handle_metrics` (metrics.rs,
lines 131-159), after the authorization check has passed. -/
def serve_metrics (format : String) (stored : Option Metrics) :
    MetricsResponse :=
  match stored with
  | some m =>
    if format = "json" then MetricsResponse.jsonBody m
    else MetricsResponse.openmetricsBody m
  | none => MetricsResponse.unavailable

/-- Model of `handle_metrics` (metrics.rs, lines 113-160).  `auth_header`
is the request value of the `authorization` header when present and
ASCII-decodable (a `HeaderValue::to_str` failure folds into `none`, which
the source's wildcard match arm treats the same as an absent header);
`stored` is the current contents of the metrics cell. -/
def handle_metrics (bearer_token : Option String) (format : String)
    (auth_header : Option String) (stored : Option Metrics) :
    MetricsResponse :=
  match bearer_token with
  | some required =>
    if auth_header = some ("Bearer " ++ required) then
      serve_metrics format stored
    else MetricsResponse.unauthorized
  | none => serve_metrics format stored

/-! ### Concrete data used by witnesses -/

deriving instance DecidableEq for Except

/-- The default configuration with the shutdown feature enabled. -/
def cfgEnabled : Config :=
  ⟨⟨"localhost", "ups", 3493, none, none⟩,
   ⟨5⟩,
   ⟨true, 300, 20, 180, "/sbin/shutdown -h +0", 30⟩,
   ⟨none, "info"⟩,
   some ⟨false, 8089, none, some "openmetrics"⟩⟩

/-- A snapshot reporting on-battery operation. -/
def snapOB : UpsStatus :=
  ⟨50, 600, "OB", true, none⟩

/-- A snapshot reporting line power. -/
def snapOL : UpsStatus :=
  ⟨50, 600, "OL", false, none⟩

/-! ### Theorems -/

/-- The responses produced after the authorization check are never the
401 response. -/
theorem serve_metrics_ne_unauthorized (format : String)
    (stored : Option Metrics) :
    (serve_metrics format stored).statusCode ≠ 401 := by
  cases stored with
  | none => simp [serve_metrics, MetricsResponse.statusCode]
  | some m =>
    by_cases hf : format = "json" <;>
      simp [serve_metrics, hf, MetricsResponse.statusCode]

/-- C7: with no bearer token configured, `GET /metrics` never answers 401;
with a token configured, the answer is non-401 exactly when the request
carries an `Authorization` header equal to `Bearer ` followed by the
configured token — in every metrics-cell state and for every configured
format. -/
theorem bearer_auth_iff (format : String) (auth : Option String)
    (stored : Option Metrics) (tok : String) :
    (handle_metrics none format auth stored).statusCode ≠ 401 ∧
    ((handle_metrics (some tok) format auth stored).statusCode ≠ 401 ↔
      auth = some ("Bearer " ++ tok)) := by
  constructor
  · simpa [handle_metrics] using serve_metrics_ne_unauthorized format stored
  · constructor
    · intro h
      by_contra hne
      simp [handle_metrics, hne, MetricsResponse.statusCode] at h
    · intro h
      simpa [handle_metrics, h] using serve_metrics_ne_unauthorized format stored

/-- C4 counterexample: with a bearer token configured and an unauthorized
request, `GET /metrics` answers 401 even though no record has been
published yet — not 503 as the claim states. -/
theorem metrics_unpublished_cex :
    (handle_metrics (some "secret") "openmetrics" none none).statusCode = 401 ∧
    (handle_metrics (some "secret") "openmetrics" none none).statusCode ≠ 503 := by
  constructor <;> decide

/-- C4 (amended): before any record is published, `GET /metrics` answers
503 when no bearer token is configured or when the request is authorized;
when a token is configured and the request is not authorized, the 401
from the authorization check takes precedence. -/
theorem metrics_unpublished_503 (format : String) (auth : Option String)
    (tok : String) (hne : auth ≠ some ("Bearer " ++ tok)) :
    (handle_metrics none format auth none).statusCode = 503 ∧
    (handle_metrics (some tok) format (some ("Bearer " ++ tok)) none).statusCode = 503 ∧
    (handle_metrics (some tok) format auth none).statusCode = 401 := by
  refine ⟨?_, ?_, ?_⟩
  · simp [handle_metrics, serve_metrics, MetricsResponse.statusCode]
  · simp [handle_metrics, serve_metrics, MetricsResponse.statusCode]
  · simp [handle_metrics, hne, MetricsResponse.statusCode]

/-- Witness for the amended C4 at a concrete token and request. -/
theorem metrics_unpublished_503_witness :
    (handle_metrics none "openmetrics" none none).statusCode = 503 ∧
    (handle_metrics (some "secret") "openmetrics"
      (some ("Bearer " ++ "secret")) none).statusCode = 503 ∧
    (handle_metrics (some "secret") "openmetrics" none none).statusCode = 401 :=
  metrics_unpublished_503 "openmetrics" none "secret" (by decide)

/-- C5 counterexample: a well-formed `VAR` line whose value field is the
string `ERR` contains the substring `ERR`, yet `get_var` accepts it and
returns that value instead of failing. -/
theorem err_line_accepted_cex :
    containsSubstr "VAR ups battery.charge ERR" "ERR" = true ∧
    get_var "VAR ups battery.charge ERR" = Except.ok "ERR" := by
  constructor <;> decide

/-- C5 (amended): a response line containing the substring `ERR` makes
`get_var` fail with a protocol error only when the line is not a
well-formed `VAR` response (fewer than four whitespace tokens, or a first
token other than `VAR`); the well-formedness check runs first. -/
theorem err_line_protocol_error (response : String)
    (hform : ¬ (4 ≤ (varParts response).length ∧
      (varParts response).headD "" = "VAR"))
    (herr : containsSubstr response "ERR" = true) :
    get_var response = Except.error ("UPS error response: " ++ response) := by
  rw [List.headD_eq_head?] at hform
  simp [get_var, herr]
  intro hlen h
  exact hform ⟨hlen, h⟩

/-- Witness for the amended C5 at a concrete error line. -/
theorem err_line_protocol_error_witness :
    ¬ (4 ≤ (varParts "ERR ACCESS-DENIED").length ∧
      (varParts "ERR ACCESS-DENIED").headD "" = "VAR") ∧
    containsSubstr "ERR ACCESS-DENIED" "ERR" = true ∧
    get_var "ERR ACCESS-DENIED" =
      Except.error ("UPS error response: " ++ "ERR ACCESS-DENIED") :=
  ⟨by decide, by decide, err_line_protocol_error _ (by decide) (by decide)⟩

/-- C6: when the `battery.charge` or `battery.runtime` variable read
succeeds at the protocol level but its value does not parse as a number,
`get_status` substitutes 0 for that field and still returns a snapshot
instead of failing the whole read. -/
theorem numeric_fallback_zero (l1 l2 l3 l4 v w s : String)
    (h1 : get_var l1 = Except.ok v) (h2 : get_var l2 = Except.ok w)
    (h3 : get_var l3 = Except.ok s) :
    ∃ st, get_status l1 l2 l3 l4 = Except.ok st ∧
      (parseF64 v = none → st.battery_charge = 0) ∧
      (parseU64 w = none → st.battery_runtime = 0) := by
  unfold get_status
  rw [h1, h2, h3]
  refine ⟨_, rfl, ?_, ?_⟩
  · intro hv
    simp [hv]
  · intro hw
    simp [hw]

/-- Witness for C6: non-numeric charge and runtime values on otherwise
well-formed lines still yield a snapshot, with both fields zero. -/
theorem numeric_fallback_zero_witness :
    get_var "VAR u battery.charge abc" = Except.ok "abc" ∧
    get_var "VAR u battery.runtime xyz" = Except.ok "xyz" ∧
    get_var "VAR u ups.status OB" = Except.ok "OB" ∧
    ∃ st, get_status "VAR u battery.charge abc" "VAR u battery.runtime xyz"
        "VAR u ups.status OB" "ERR x" = Except.ok st ∧
      (parseF64 "abc" = none → st.battery_charge = 0) ∧
      (parseU64 "xyz" = none → st.battery_runtime = 0) :=
  ⟨by decide, by decide, by decide,
   numeric_fallback_zero "VAR u battery.charge abc" "VAR u battery.runtime xyz"
     "VAR u ups.status OB" "ERR x" "abc" "xyz" "OB"
     (by decide) (by decide) (by decide)⟩

/-- C8 counterexample: a device reporting the charge string `150` produces
a snapshot whose battery charge is 150, outside the 0-100 range — the
code performs no clamping. -/
theorem charge_range_cex :
    (get_status "VAR u battery.charge 150" "VAR u battery.runtime 600"
        "VAR u ups.status OL" "VAR u output.power 100").map
      (fun st => decide (0 ≤ st.battery_charge ∧ st.battery_charge ≤ 100)) =
      Except.ok false := by
  decide

/-- C8 (amended): a snapshot produced by `get_status` has its battery
charge in the 0-100 range whenever the parsed device value — or the 0
substituted on a parse failure — lies in that range; the runtime field is
a non-negative integer by construction.  Out-of-range device readings are
not clamped. -/
theorem charge_range_conditional (l1 l2 l3 l4 v : String) (st : UpsStatus)
    (h : get_status l1 l2 l3 l4 = Except.ok st)
    (hv : get_var l1 = Except.ok v)
    (hin : 0 ≤ (parseF64 v).getD 0 ∧ (parseF64 v).getD 0 ≤ 100) :
    (0 ≤ st.battery_charge ∧ st.battery_charge ≤ 100) ∧
      (0 : ℤ) ≤ (st.battery_runtime : ℤ) := by
  unfold get_status at h
  rw [hv] at h
  cases h2 : get_var l2 with
  | error e =>
    rw [h2] at h
    exact Except.noConfusion h
  | ok w =>
    rw [h2] at h
    cases h3 : get_var l3 with
    | error e =>
      rw [h3] at h
      exact Except.noConfusion h
    | ok s =>
      rw [h3] at h
      injection h with hst
      subst hst
      exact ⟨hin, Int.ofNat_nonneg _⟩

/-- Witness for the amended C8: an in-range device reading yields an
in-range snapshot. -/
theorem charge_range_conditional_witness :
    get_status "VAR u battery.charge 50" "VAR u battery.runtime 600"
      "VAR u ups.status OL" "VAR u output.power 100" =
      Except.ok ⟨50, 600, "OL", false, some 100⟩ ∧
    get_var "VAR u battery.charge 50" = Except.ok "50" ∧
    (0 ≤ (parseF64 "50").getD 0 ∧ (parseF64 "50").getD 0 ≤ 100) ∧
    ((0 ≤ (⟨50, 600, "OL", false, some 100⟩ : UpsStatus).battery_charge ∧
      (⟨50, 600, "OL", false, some 100⟩ : UpsStatus).battery_charge ≤ 100) ∧
      (0 : ℤ) ≤ ((⟨50, 600, "OL", false, some 100⟩ : UpsStatus).battery_runtime : ℤ)) :=
  ⟨by decide, by decide, by decide,
   charge_range_conditional "VAR u battery.charge 50" "VAR u battery.runtime 600"
     "VAR u ups.status OL" "VAR u output.power 100" "50"
     ⟨50, 600, "OL", false, some 100⟩ (by decide) (by decide) (by decide)⟩

/-- C9: a cycle whose status read fails leaves the monitor state exactly
as it was, publishes no metrics record, performs no shutdown attempt,
and the loop break decision afterwards is the unchanged shutdown flag,
so an unscheduled monitor proceeds to the next poll. -/
theorem read_failure_skips_cycle (cfg : Config) (st : MonitorState)
    (now : ℕ) (e : String) :
    monitor_cycle cfg st now (Except.error e) = (st, none, false) ∧
    loopBreaks (monitor_cycle cfg st now (Except.error e)).1 =
      st.shutdown_scheduled :=
  ⟨rfl, rfl⟩

/-- C1: with the shutdown feature enabled, shutdown not yet scheduled and
the snapshot on-battery (the on-battery-since timestamp being set, as the
state-update step guarantees in that situation), `should_shutdown`
decides true exactly when elapsed time reaches the on-battery-seconds
threshold, or the charge is at or below the charge threshold, or the
runtime is at or below the runtime threshold; in particular a low charge
fires with zero elapsed on-battery time. -/
theorem should_shutdown_trigger_iff (cfg : Config) (st : MonitorState)
    (now : ℕ) (status : UpsStatus) (since : ℕ)
    (hen : cfg.shutdown.enabled = true)
    (hsch : st.shutdown_scheduled = false)
    (hob : status.on_battery = true)
    (hsince : st.on_battery_since = some since) :
    (should_shutdown cfg st now status).1 = true ↔
      (cfg.shutdown.on_battery_seconds ≤ now - since ∨
       status.battery_charge ≤ cfg.shutdown.battery_percent_threshold ∨
       status.battery_runtime ≤ cfg.shutdown.runtime_threshold) := by
  simp only [should_shutdown, hen, hsch, hob, hsince, Bool.not_true,
    Bool.false_or, Bool.not_false]
  split_ifs with h1 h2 h3 <;> simp_all

/-- Witness for C1 at the spec's scenario 3: charge 15 against threshold
20, zero elapsed on-battery time, runtime above threshold — the charge
trigger alone fires. -/
theorem should_shutdown_trigger_iff_witness :
    ((should_shutdown cfgEnabled ⟨some 5, false⟩ 5 ⟨15, 600, "OB", true, none⟩).1 = true ↔
      (cfgEnabled.shutdown.on_battery_seconds ≤ 5 - 5 ∨
       (15 : ℚ) ≤ cfgEnabled.shutdown.battery_percent_threshold ∨
       (600 : ℕ) ≤ cfgEnabled.shutdown.runtime_threshold)) ∧
    (should_shutdown cfgEnabled ⟨some 5, false⟩ 5 ⟨15, 600, "OB", true, none⟩).1 = true :=
  ⟨should_shutdown_trigger_iff cfgEnabled ⟨some 5, false⟩ 5
     ⟨15, 600, "OB", true, none⟩ 5 rfl rfl rfl rfl,
   by decide⟩

/-- C10: the `remaining` value logged by `should_shutdown` is computed only
on the path where the elapsed-time trigger did not fire, so the u64
subtraction `on_battery_seconds - elapsed` operates on elapsed strictly
below the threshold and never underflows: the value is positive. -/
theorem remaining_no_underflow (cfg : Config) (st : MonitorState)
    (now : ℕ) (status : UpsStatus) (r : ℤ)
    (h : (should_shutdown cfg st now status).2 = some r) :
    ∃ since, st.on_battery_since = some since ∧
      now - since < cfg.shutdown.on_battery_seconds ∧
      r = (cfg.shutdown.on_battery_seconds : ℤ) - ((now - since : ℕ) : ℤ) ∧
      0 < r := by
  obtain ⟨ob, sched⟩ := st
  cases ob with
  | none =>
    exfalso
    simp only [should_shutdown] at h
    split at h
    · exact absurd h (by simp)
    split at h
    · exact absurd h (by simp)
    split at h
    · exact absurd h (by simp)
    split at h
    · exact absurd h (by simp)
    exact absurd h (by simp)
  | some since =>
    simp only [should_shutdown] at h
    split at h
    · exact absurd h (by simp)
    split at h
    · exact absurd h (by simp)
    split at h
    · exact absurd h (by simp)
    rename_i hle
    have hlt' : now - since < cfg.shutdown.on_battery_seconds :=
      Nat.lt_of_not_le hle
    have hr : r = (cfg.shutdown.on_battery_seconds : ℤ) -
        ((now - since : ℕ) : ℤ) := by
      split at h
      · injection h with h
        exact h.symm
      split at h
      · injection h with h
        exact h.symm
      injection h with h
      exact h.symm
    refine ⟨since, rfl, hlt', hr, ?_⟩
    rw [hr]
    omega

/-- Witness for C10: a cycle ten seconds into battery operation with no
trigger firing computes the positive remaining value 290. -/
theorem remaining_no_underflow_witness :
    (should_shutdown cfgEnabled ⟨some 0, false⟩ 10 ⟨50, 600, "OB", true, none⟩).2 =
      some 290 ∧
    ∃ since, (⟨some 0, false⟩ : MonitorState).on_battery_since = some since ∧
      10 - since < cfgEnabled.shutdown.on_battery_seconds ∧
      (290 : ℤ) = (cfgEnabled.shutdown.on_battery_seconds : ℤ) -
        ((10 - since : ℕ) : ℤ) ∧
      (0 : ℤ) < 290 :=
  ⟨by decide,
   remaining_no_underflow cfgEnabled ⟨some 0, false⟩ 10
     ⟨50, 600, "OB", true, none⟩ 290 (by decide)⟩

/-- The state-update step never touches the shutdown flag. -/
theorem update_battery_state_keeps_flag (st : MonitorState) (now : ℕ)
    (status : UpsStatus) :
    (update_battery_state st now status).shutdown_scheduled =
      st.shutdown_scheduled := by
  unfold update_battery_state
  split_ifs <;> rfl

/-- With the shutdown flag already set, `should_shutdown` answers false at
its first guard. -/
theorem should_shutdown_of_scheduled (cfg : Config) (st : MonitorState)
    (now : ℕ) (status : UpsStatus) (h : st.shutdown_scheduled = true) :
    (should_shutdown cfg st now status).1 = false := by
  simp [should_shutdown, h]

/-- A cycle entered with the shutdown flag set keeps it set and performs
no shutdown attempt. -/
theorem monitor_cycle_scheduled_mono (cfg : Config) (st : MonitorState)
    (now : ℕ) (res : Except String UpsStatus)
    (h : st.shutdown_scheduled = true) :
    (monitor_cycle cfg st now res).1.shutdown_scheduled = true ∧
    (monitor_cycle cfg st now res).2.2 = false := by
  cases res with
  | error e => exact ⟨h, rfl⟩
  | ok status =>
    have hst1 : (update_battery_state st now status).shutdown_scheduled = true := by
      rw [update_battery_state_keeps_flag]
      exact h
    have hss := should_shutdown_of_scheduled cfg
      (update_battery_state st now status) now status hst1
    simp only [monitor_cycle, hss]
    exact ⟨hst1, rfl⟩

/-- A cycle that performs a shutdown attempt leaves the flag set. -/
theorem monitor_cycle_attempt_sets_flag (cfg : Config) (st : MonitorState)
    (now : ℕ) (res : Except String UpsStatus)
    (h : (monitor_cycle cfg st now res).2.2 = true) :
    (monitor_cycle cfg st now res).1.shutdown_scheduled = true := by
  cases res with
  | error e => exact absurd h (by simp [monitor_cycle])
  | ok status =>
    simp only [monitor_cycle] at h ⊢
    split at h
    · rename_i hcond
      rw [if_pos hcond]
      simp only [execute_shutdown] at h ⊢
      split at h
      · exact absurd h (by simp)
      · rename_i hs1
        rw [if_neg hs1]
    · exact absurd h (by simp)

/-- Attempt-count bound for the trace fold, generalized over the starting
state and accumulator. -/
theorem run_trace_count_aux (cfg : Config)
    (inputs : List (ℕ × Except String UpsStatus)) :
    ∀ (st : MonitorState) (c : ℕ),
      (inputs.foldl (traceStep cfg) (st, c)).2 ≤
        c + (if st.shutdown_scheduled then 0 else 1) := by
  induction inputs with
  | nil =>
    intro st c
    simp
  | cons i is ih =>
    intro st c
    simp only [List.foldl_cons]
    have hstep : traceStep cfg (st, c) i =
        ((monitor_cycle cfg st i.1 i.2).1,
         c + (if (monitor_cycle cfg st i.1 i.2).2.2 then 1 else 0)) := rfl
    rw [hstep]
    refine le_trans (ih _ _) ?_
    by_cases hsch : st.shutdown_scheduled = true
    · have hm := monitor_cycle_scheduled_mono cfg st i.1 i.2 hsch
      simp [hm.1, hm.2, hsch]
    · simp only [Bool.not_eq_true] at hsch
      by_cases hatt : (monitor_cycle cfg st i.1 i.2).2.2 = true
      · have hflag := monitor_cycle_attempt_sets_flag cfg st i.1 i.2 hatt
        simp [hflag, hatt, hsch]
      · simp only [Bool.not_eq_true] at hatt
        cases hms : (monitor_cycle cfg st i.1 i.2).1.shutdown_scheduled <;>
          simp [hatt, hsch, hms]

/-- C2: the shutdown flag is one-way.  Once set, any further cycle keeps
it set and performs no shutdown attempt, and the executor itself returns
at its guard without a new attempt; and over any whole trace started from
the initial state, at most one cycle ever performs a shutdown attempt. -/
theorem shutdown_scheduled_one_way (cfg : Config) (st : MonitorState)
    (now : ℕ) (res : Except String UpsStatus)
    (inputs : List (ℕ × Except String UpsStatus))
    (h : st.shutdown_scheduled = true) :
    (monitor_cycle cfg st now res).1.shutdown_scheduled = true ∧
    (monitor_cycle cfg st now res).2.2 = false ∧
    execute_shutdown st = (st, false) ∧
    (run_trace cfg initialState inputs).2 ≤ 1 := by
  have hm := monitor_cycle_scheduled_mono cfg st now res h
  refine ⟨hm.1, hm.2, ?_, ?_⟩
  · unfold execute_shutdown
    rw [if_pos h]
  · have := run_trace_count_aux cfg inputs initialState 0
    simpa [run_trace, initialState] using this

/-- Witness for C2 at a concrete scheduled state and a concrete two-cycle
trace that triggers at the first on-battery cycle. -/
theorem shutdown_scheduled_one_way_witness :
    (monitor_cycle cfgEnabled ⟨none, true⟩ 0 (Except.ok snapOB)).1.shutdown_scheduled = true ∧
    (monitor_cycle cfgEnabled ⟨none, true⟩ 0 (Except.ok snapOB)).2.2 = false ∧
    execute_shutdown ⟨none, true⟩ = (⟨none, true⟩, false) ∧
    (run_trace cfgEnabled initialState
      [(0, Except.ok ⟨10, 60, "OB", true, none⟩),
       (5, Except.ok ⟨10, 60, "OB", true, none⟩)]).2 ≤ 1 :=
  shutdown_scheduled_one_way cfgEnabled ⟨none, true⟩ 0 (Except.ok snapOB)
    [(0, Except.ok ⟨10, 60, "OB", true, none⟩),
     (5, Except.ok ⟨10, 60, "OB", true, none⟩)] rfl

/-- One state-update step leaves the timestamp present exactly when the
snapshot just processed reports on-battery. -/
theorem update_battery_state_isSome (st : MonitorState) (now : ℕ)
    (status : UpsStatus) :
    (update_battery_state st now status).on_battery_since.isSome =
      status.on_battery := by
  cases hob : status.on_battery <;> cases hs : st.on_battery_since <;>
    simp [update_battery_state, hob, hs]

/-- Folding the state-update step over a nonempty snapshot sequence leaves
the timestamp present exactly when the last snapshot was on-battery,
whatever state the fold starts from. -/
theorem update_trace_last_aux (snaps : List (ℕ × UpsStatus)) :
    ∀ (st : MonitorState) (h : snaps ≠ []),
      (update_trace st snaps).on_battery_since.isSome =
        (snaps.getLast h).2.on_battery := by
  induction snaps with
  | nil =>
    intro st h
    exact absurd rfl h
  | cons p rest ih =>
    intro st h
    cases rest with
    | nil =>
      simpa [update_trace] using
        update_battery_state_isSome st p.1 p.2
    | cons q rs =>
      have h2 : q :: rs ≠ [] := List.cons_ne_nil q rs
      rw [List.getLast_cons h2]
      simpa [update_trace] using
        ih (update_battery_state st p.1 p.2) h2

/-- C3: after the monitor's state-update step has processed a sequence of
successfully read snapshots, `on_battery_since` is present if and only if
the latest snapshot had on-battery true — equivalently, no snapshot since
it was set has reported on-battery false. -/
theorem on_battery_since_iff_latest (snaps : List (ℕ × UpsStatus))
    (h : snaps ≠ []) :
    (update_trace initialState snaps).on_battery_since.isSome =
      (snaps.getLast h).2.on_battery :=
  update_trace_last_aux snaps initialState h

/-- Witness for C3 on a concrete on-battery then back-on-line sequence. -/
theorem on_battery_since_iff_latest_witness :
    (update_trace initialState [(0, snapOB), (5, snapOL)]).on_battery_since.isSome =
      (List.getLast [(0, snapOB), (5, snapOL)] (List.cons_ne_nil _ _)).2.on_battery ∧
    (update_trace initialState [(0, snapOB), (5, snapOL)]).on_battery_since.isSome = false :=
  ⟨on_battery_since_iff_latest [(0, snapOB), (5, snapOL)] (List.cons_ne_nil _ _),
   by decide⟩

end RabbitNUT
